import Mathlib

/-! Shallow embedding of the mutinynet faucet: the spend ledger and
    admission checks of src/payments.rs, the payment-rail handlers of
    src/main.rs together with src/onchain.rs, src/lightning.rs and
    src/channel.rs, and the payjoin receiver pipeline of src/payjoin.rs.
    Time is an explicit natural-number parameter standing for the value
    of Instant::now at the call (Rust duration_since saturates at zero,
    matching natural subtraction); amounts are naturals. -/

namespace Faucet

/-- CACHE_DURATION from src/payments.rs: one day, in seconds. -/
def CACHE_DURATION : Nat := 86400

/-- MAX_SEND_AMOUNT from src/main.rs. -/
def MAX_SEND_AMOUNT : Nat := 1000000

/-- struct Payment from src/payments.rs. -/
structure Payment where
  time : Nat
  amount : Nat
deriving DecidableEq

/-- struct PaymentTracker from src/payments.rs: insertion-ordered queue. -/
structure PaymentTracker where
  payments : List Payment
deriving DecidableEq

/-- PaymentTracker::add_payment: push a record with the current time. -/
def PaymentTracker.add_payment (t : PaymentTracker) (now amount : Nat) : PaymentTracker :=
  ⟨t.payments ++ [⟨now, amount⟩]⟩

/-- The pop condition of PaymentTracker::clean_old_payments: the loop pops while
    now.duration_since(time) is NOT below CACHE_DURATION. -/
def payment_is_old (now : Nat) (p : Payment) : Bool :=
  !(decide (now - p.time < CACHE_DURATION))

/-- PaymentTracker::clean_old_payments: pop aged records from the front,
    stopping at the first record younger than the window. -/
def PaymentTracker.clean_old_payments (t : PaymentTracker) (now : Nat) : PaymentTracker :=
  ⟨t.payments.dropWhile (payment_is_old now)⟩

/-- PaymentTracker::sum_payments: clean, then sum the remaining amounts.  The
    Rust method mutates the tracker; we return the cleaned tracker alongside. -/
def PaymentTracker.sum_payments (t : PaymentTracker) (now : Nat) : Nat × PaymentTracker :=
  (((t.clean_old_payments now).payments.map Payment.amount).sum, t.clean_old_payments now)

/-- The PaymentsByIp tracker map from src/payments.rs, as an association list. -/
abbrev Ledger := List (String × PaymentTracker)

/-- HashMap::get on the tracker map. -/
def ledger_lookup : Ledger → String → Option PaymentTracker
  | [], _ => none
  | (k, t) :: rest, key => if key = k then some t else ledger_lookup rest key

/-- In-place replacement of the tracker stored under a key (get_mut mutation). -/
def ledger_update : Ledger → String → PaymentTracker → Ledger
  | [], _, _ => []
  | (k, t) :: rest, key, tr =>
    if key = k then (k, tr) :: rest else (k, t) :: ledger_update rest key tr

/-- PaymentsByIp::add_payment_impl: entry(key).or_insert_with(new) then add. -/
def add_payment_impl (l : Ledger) (key : String) (now amount : Nat) : Ledger :=
  match ledger_lookup l key with
  | some t => ledger_update l key (t.add_payment now amount)
  | none => l ++ [(key, PaymentTracker.add_payment ⟨[]⟩ now amount)]

/-- PaymentsByIp::get_total_payments: sum (and clean) the key if present,
    otherwise zero with the map untouched. -/
def get_total_payments (l : Ledger) (key : String) (now : Nat) : Nat × Ledger :=
  match ledger_lookup l key with
  | some t => ((t.sum_payments now).1, ledger_update l key (t.sum_payments now).2)
  | none => (0, l)

/-- The identity key format used by PaymentsByIp for an authenticated user. -/
def github_key (u : String) : String := "github:" ++ u

/-- PaymentsByIp::add_payment: record under the ip, and under the address and
    identity keys when supplied. -/
def add_payment (l : Ledger) (ip : String) (address user : Option String)
    (now amount : Nat) : Ledger :=
  let l1 := add_payment_impl l ip now amount
  let l2 := match address with
    | some a => add_payment_impl l1 a now amount
    | none => l1
  match user with
  | some u => add_payment_impl l2 (github_key u) now amount
  | none => l2

/-- PaymentsByIp::verify_payments: accumulate the ip, address and identity
    totals (each summing mutates its tracker by cleaning), remember the
    address-only amount, and reject when the combined total reaches ten times
    the single-transaction cap or the address-only amount reaches the cap. -/
def verify_payments (l : Ledger) (ip : String) (address user : Option String)
    (now : Nat) : Bool × Ledger :=
  let r1 := get_total_payments l ip now
  let r2 := match address with
    | some a => get_total_payments r1.2 a now
    | none => (0, r1.2)
  let r3 := match user with
    | some u => get_total_payments r2.2 (github_key u) now
    | none => (0, r2.2)
  (decide (MAX_SEND_AMOUNT * 10 ≤ r1.1 + r2.1 + r3.1)
    || decide (MAX_SEND_AMOUNT ≤ r2.1), r3.2)

/-- The pure per-key window total: what get_total_payments returns. -/
def ledger_total (l : Ledger) (key : String) (now : Nat) : Nat :=
  (get_total_payments l key now).1

/-- Window total of an optional key (zero when absent), following the
    spec wording for the admission decision. -/
def opt_total (l : Ledger) (o : Option String) (now : Nat) : Nat :=
  match o with
  | some k => ledger_total l k now
  | none => 0

theorem dropWhile_dropWhile {α : Type} (p : α → Bool) :
    ∀ xs : List α, (xs.dropWhile p).dropWhile p = xs.dropWhile p
  | [] => rfl
  | x :: xs => by
    cases h : p x
    · simp [List.dropWhile, h]
    · simp [List.dropWhile, h, dropWhile_dropWhile p xs]

theorem sum_payments_clean (t : PaymentTracker) (now : Nat) :
    (((t.sum_payments now).2).sum_payments now).1 = (t.sum_payments now).1 := by
  simp [PaymentTracker.sum_payments, PaymentTracker.clean_old_payments, dropWhile_dropWhile]

theorem ledger_lookup_update_ne (k k' : String) (tr : PaymentTracker) (h : k' ≠ k) :
    ∀ l : Ledger, ledger_lookup (ledger_update l k tr) k' = ledger_lookup l k'
  | [] => rfl
  | (ka, ta) :: rest => by
    by_cases hk : k = ka
    · subst hk
      simp [ledger_update, ledger_lookup, h]
    · simp [ledger_update, ledger_lookup, hk, ledger_lookup_update_ne k k' tr h rest]

theorem ledger_lookup_update_eq (k : String) (tr : PaymentTracker) :
    ∀ l : Ledger, (ledger_lookup l k).isSome →
      ledger_lookup (ledger_update l k tr) k = some tr
  | [], h => by simp [ledger_lookup] at h
  | (ka, ta) :: rest, h => by
    by_cases hk : k = ka
    · simp [ledger_update, ledger_lookup, hk]
    · simp [ledger_lookup, hk] at h
      simp [ledger_update, ledger_lookup, hk, ledger_lookup_update_eq k tr rest h]

theorem get_total_fst (l : Ledger) (k : String) (now : Nat) :
    (get_total_payments l k now).1 = ledger_total l k now := rfl

/-- Querying one key preserves every key's window total: cleaning a tracker
    does not change its cleaned sum. -/
theorem ledger_total_get (l : Ledger) (k k' : String) (now : Nat) :
    ledger_total (get_total_payments l k now).2 k' now = ledger_total l k' now := by
  cases hl : ledger_lookup l k with
  | none => simp [get_total_payments, hl]
  | some t =>
    simp only [get_total_payments, hl]
    by_cases hk : k' = k
    · subst hk
      have hs : ledger_lookup (ledger_update l k' (t.sum_payments now).2) k'
          = some (t.sum_payments now).2 :=
        ledger_lookup_update_eq k' (t.sum_payments now).2 l (by simp [hl])
      simp [ledger_total, get_total_payments, hs, hl, sum_payments_clean]
    · have hs := ledger_lookup_update_ne k k' (t.sum_payments now).2 hk l
      cases hl2 : ledger_lookup l k' <;>
        simp [ledger_total, get_total_payments, hs, hl2]

/-- The admission decision equals the policy formula over pure window totals. -/
theorem verify_payments_fst (l : Ledger) (ip : String) (address user : Option String)
    (now : Nat) :
    (verify_payments l ip address user now).1 =
      (decide (MAX_SEND_AMOUNT * 10 ≤
          ledger_total l ip now + opt_total l address now
            + opt_total l (user.map github_key) now)
        || decide (MAX_SEND_AMOUNT ≤ opt_total l address now)) := by
  cases address with
  | none =>
    cases user with
    | none => simp [verify_payments, opt_total, get_total_fst]
    | some u => simp [verify_payments, opt_total, get_total_fst, ledger_total_get]
  | some a =>
    cases user with
    | none => simp [verify_payments, opt_total, get_total_fst, ledger_total_get]
    | some u => simp [verify_payments, opt_total, get_total_fst, ledger_total_get]

/-- C2: the admission check returns reject if and only if the sum of the
    window totals of the supplied keys reaches ten times the
    single-transaction maximum, or the destination total alone reaches the
    single-transaction maximum; in particular a destination whose total
    alone has reached the single-transaction maximum is rejected no matter
    what the ip and identity totals are (in particular when they are zero). -/
theorem C2_admission_check :
    (∀ (l : Ledger) (ip : String) (address user : Option String) (now : Nat),
      ((verify_payments l ip address user now).1 = true ↔
        (MAX_SEND_AMOUNT * 10 ≤
            ledger_total l ip now + opt_total l address now
              + opt_total l (user.map github_key) now
          ∨ MAX_SEND_AMOUNT ≤ opt_total l address now))) ∧
    (∀ (l : Ledger) (ip a u : String) (now : Nat),
      MAX_SEND_AMOUNT ≤ ledger_total l a now →
      (verify_payments l ip (some a) (some u) now).1 = true) := by
  constructor
  · intro l ip address user now
    simp [verify_payments_fst]
  · intro l ip a u now h
    rw [verify_payments_fst]
    simp [opt_total, h]

/-- C2 witness: a destination with exactly the single-transaction maximum
    already recorded is rejected although the ip and identity are fresh. -/
theorem C2_witness :
    (verify_payments [("addr1", PaymentTracker.mk [Payment.mk 0 1000000])]
      "9.9.9.9" (some "addr1") (some "bob") 0).1 = true :=
  C2_admission_check.2 _ _ _ _ _ (by decide)

/-- The ledger of spec scenario 2: the ip already has 9,500,000 recorded. -/
def c3_state : Ledger := [("1.2.3.4", PaymentTracker.mk [Payment.mk 0 9500000])]

/-- C3 counterexample: the admission check for the scenario ip with a prior
    recorded total of 9,500,000 ACCEPTS (returns false, not reject): the check
    compares only previously recorded totals and never adds the 600,000 being
    requested, and 9,500,000 is below the 10,000,000 combined cap. -/
theorem C3_counterexample :
    (verify_payments c3_state "1.2.3.4" none none 0).1 = false := by decide

/-- C3 amended: the scenario request is accepted, because the admission check
    considers only prior recorded totals; only after the 600,000 disbursement
    is recorded does the combined total (10,100,000) reach the cap, so the
    next admission check for the same ip rejects. -/
theorem C3_accepts_then_blocks :
    (verify_payments c3_state "1.2.3.4" none none 0).1 = false ∧
    (verify_payments (add_payment c3_state "1.2.3.4" none none 0 600000)
      "1.2.3.4" none none 0).1 = true := by
  constructor <;> decide

theorem dropWhile_eq_self_of_young (now : Nat) (xs : List Payment)
    (h : ∀ p ∈ xs, now - p.time < CACHE_DURATION) :
    xs.dropWhile (payment_is_old now) = xs := by
  cases xs with
  | nil => rfl
  | cons x xs => simp [List.dropWhile, payment_is_old, h x (List.mem_cons_self x xs)]

theorem foldl_add_payment_impl (key : String) (calls : List Payment) :
    ∀ ps : List Payment,
      calls.foldl (fun l c => add_payment_impl l key c.time c.amount)
          [(key, PaymentTracker.mk ps)]
        = [(key, PaymentTracker.mk (ps ++ calls))] := by
  induction calls with
  | nil => intro ps; simp
  | cons c cs ih =>
    intro ps
    have hstep : add_payment_impl [(key, PaymentTracker.mk ps)] key c.time c.amount
        = [(key, PaymentTracker.mk (ps ++ [c]))] := by
      simp [add_payment_impl, ledger_lookup, ledger_update, PaymentTracker.add_payment]
    simp only [List.foldl_cons, hstep, ih (ps ++ [c]), List.append_assoc,
      List.singleton_append]

/-- C6: recording any sequence of payments for a key, all of whose timestamps
    lie inside the retention window of the query time, makes the queried
    total equal the exact sum of the recorded amounts. -/
theorem C6_record_then_total (key : String) (calls : List Payment) (now : Nat)
    (h : ∀ p ∈ calls, now - p.time < CACHE_DURATION) :
    (get_total_payments
        (calls.foldl (fun l c => add_payment_impl l key c.time c.amount) ([] : Ledger))
        key now).1
      = (calls.map Payment.amount).sum := by
  cases calls with
  | nil => simp [get_total_payments, ledger_lookup]
  | cons c cs =>
    have h0 : add_payment_impl ([] : Ledger) key c.time c.amount
        = [(key, PaymentTracker.mk [c])] := by
      simp [add_payment_impl, ledger_lookup, PaymentTracker.add_payment]
    have hfold := foldl_add_payment_impl key cs [c]
    simp only [List.foldl_cons, h0, hfold, List.singleton_append]
    simp [get_total_payments, ledger_lookup, PaymentTracker.sum_payments,
      PaymentTracker.clean_old_payments, dropWhile_eq_self_of_young now (c :: cs) h]

/-- C6 witness: record("1.2.3.4", 50000) then an immediate total returns 50000. -/
theorem C6_witness :
    (get_total_payments
        ([Payment.mk 0 50000].foldl
          (fun l c => add_payment_impl l "1.2.3.4" c.time c.amount) ([] : Ledger))
        "1.2.3.4" 0).1 = 50000 := by
  have h := C6_record_then_total "1.2.3.4" [Payment.mk 0 50000] 0 (by decide)
  simpa using h

theorem dropWhile_old_eq_filter (now : Nat) :
    ∀ xs : List Payment, List.Pairwise (fun a b => a.time ≤ b.time) xs →
      xs.dropWhile (payment_is_old now)
        = xs.filter (fun p => decide (now - p.time < CACHE_DURATION))
  | [], _ => rfl
  | x :: xs, h => by
    rcases List.pairwise_cons.mp h with ⟨hx, hxs⟩
    cases hold : payment_is_old now x
    · have hy : now - x.time < CACHE_DURATION := by
        simpa [payment_is_old] using hold
      have hall : ∀ p ∈ xs, (decide (now - p.time < CACHE_DURATION)) = true := by
        intro p hp
        have h1 : now - p.time ≤ now - x.time := Nat.sub_le_sub_left (hx p hp) now
        exact decide_eq_true (lt_of_le_of_lt h1 hy)
      simp [List.dropWhile, hold, List.filter, hy, List.filter_eq_self.mpr hall]
    · have hy : ¬(now - x.time < CACHE_DURATION) := by
        simpa [payment_is_old] using hold
      simp [List.dropWhile, hold, List.filter, hy, dropWhile_old_eq_filter now xs hxs]

/-- C7: under the recorded invariant that timestamps are appended in
    non-decreasing order, the front eviction of clean_old_payments removes
    exactly the records whose age has reached the retention window: the
    cleaned queue is the subsequence of records strictly younger than the
    window, and the returned sum ranges over exactly those records. -/
theorem C7_eviction_exact (t : PaymentTracker) (now : Nat)
    (hs : List.Pairwise (fun a b => a.time ≤ b.time) t.payments) :
    (t.clean_old_payments now).payments
        = t.payments.filter (fun p => decide (now - p.time < CACHE_DURATION)) ∧
    (t.sum_payments now).1
        = ((t.payments.filter
            (fun p => decide (now - p.time < CACHE_DURATION))).map Payment.amount).sum := by
  have h := dropWhile_old_eq_filter now t.payments hs
  exact ⟨by simpa [PaymentTracker.clean_old_payments] using h,
    by simp [PaymentTracker.sum_payments, PaymentTracker.clean_old_payments, h]⟩

/-- C7 witness: at a query time of 86400, a record of age exactly 86400 is
    evicted while the strictly younger record is kept and summed. -/
theorem C7_witness :
    ((PaymentTracker.mk [Payment.mk 0 30000, Payment.mk 10 20000]).clean_old_payments
        86400).payments
      = (PaymentTracker.mk [Payment.mk 0 30000, Payment.mk 10 20000]).payments.filter
          (fun p => decide (86400 - p.time < CACHE_DURATION)) ∧
    ((PaymentTracker.mk [Payment.mk 0 30000, Payment.mk 10 20000]).sum_payments 86400).1
      = (((PaymentTracker.mk [Payment.mk 0 30000, Payment.mk 10 20000]).payments.filter
          (fun p => decide (86400 - p.time < CACHE_DURATION))).map Payment.amount).sum :=
  C7_eviction_exact (PaymentTracker.mk [Payment.mk 0 30000, Payment.mk 10 20000]) 86400
    (by decide)

/-- C9: querying a key with no tracker returns zero and leaves the tracker
    map exactly as it was, so no tracker is created and the key set is
    unchanged. -/
theorem C9_unknown_key (l : Ledger) (key : String) (now : Nat)
    (h : ledger_lookup l key = none) :
    get_total_payments l key now = (0, l) := by
  simp [get_total_payments, h]

/-- C9 witness: querying an absent key on a concrete map returns zero with
    the map untouched. -/
theorem C9_witness :
    get_total_payments [("a", PaymentTracker.mk [Payment.mk 0 5])] "b" 0
      = (0, [("a", PaymentTracker.mk [Payment.mk 0 5])]) :=
  C9_unknown_key _ _ _ (by decide)

/-- Observable events of a request: guard consultations, ledger writes, and
    the node RPC and payjoin pipeline callbacks, in the order they happen. -/
inductive Event where
  | admissionCheck
  | recordSpend
  | sendCoinsRpc
  | sendPaymentRpc
  | listPeersRpc
  | connectPeerRpc
  | openChannelRpc
  | newAddressRpc
  | substituteOutput
  | testMempoolAcceptRpc
  | ownershipCheck
  | mixedScriptsCheck
  | seenBeforeCheck
  | identifyOutputsCheck
  | listUnspentRpc
  | leaseOutputRpc
  | fundPsbtRpc
  | signPsbtRpc
  | finalizePsbtRpc
deriving DecidableEq

/-- The RPCs through which value leaves the faucet. -/
def Event.is_disbursing : Event → Bool
  | .sendCoinsRpc => true
  | .sendPaymentRpc => true
  | .openChannelRpc => true
  | .fundPsbtRpc => true
  | .signPsbtRpc => true
  | _ => false

/-- Scan of a trace: fails on a disbursing RPC not preceded by an admission
    check. -/
def guard_before : List Event → Bool → Bool
  | [], _ => true
  | e :: rest, seen =>
    if e.is_disbursing && !seen then false
    else guard_before rest (seen || decide (e = Event.admissionCheck))

/-- Every disbursing RPC in the trace is preceded by an admission check. -/
def guard_before_disbursement (tr : List Event) : Bool :=
  guard_before tr false

theorem guard_before_of_seen : ∀ tr : List Event, guard_before tr true = true
  | [] => rfl
  | e :: tr => by simp [guard_before, guard_before_of_seen tr]

/-- Request-level inputs of pay_onchain (src/onchain.rs): the outcome of
    address/amount parsing done through the external PaymentParams library,
    and the outcome of the send_coins RPC (none = transport failure). -/
structure OnchainEnv where
  parseOk : Bool
  address : String
  amount : Nat
  sendResult : Option String

/-- pay_onchain from src/onchain.rs: parse checks, the amount cap, then the
    ledger write, then the send_coins RPC.  The write happens before the
    disbursing RPC and is kept on the RPC-failure path. -/
def pay_onchain (env : OnchainEnv) (ip user : String) (l : Ledger) (now : Nat) :
    Except String String × Ledger × List Event :=
  if !env.parseOk then (.error "invalid address", l, [])
  else if env.amount > MAX_SEND_AMOUNT then (.error "max amount is 1,000,000", l, [])
  else
    match env.sendResult with
    | none =>
      (.error "send coins failed",
        add_payment l ip (some env.address) (some user) now env.amount,
        [.recordSpend, .sendCoinsRpc])
    | some txid =>
      (.ok txid,
        add_payment l ip (some env.address) (some user) now env.amount,
        [.recordSpend, .sendCoinsRpc])

/-- onchain_handler from src/main.rs: parse the address, consult
    verify_payments over ip, address and authenticated user, and only then
    call pay_onchain. -/
def onchain_handler (env : OnchainEnv) (ip user : String) (l : Ledger) (now : Nat) :
    Except String String × Ledger × List Event :=
  if !env.parseOk then (.error "invalid address", l, [])
  else
    let r := verify_payments l ip (some env.address) (some user) now
    if r.1 then (.error "Too many payments", r.2, [.admissionCheck])
    else
      let s := pay_onchain env ip user r.2 now
      (s.1, s.2.1, Event.admissionCheck :: s.2.2)

/-- The four ways pay_lightning (src/lightning.rs) obtains an invoice from
    the request string: a bolt11 invoice carrying an optional msat amount, an
    lnurl or a nostr pubkey resolved through external services to a pay
    response with a min_sendable (none = resolution failed), or none of
    these. -/
inductive LnSource where
  | invoice (amountMsat : Option Nat)
  | lnurlPay (minSendable : Option Nat)
  | nostrKey (minSendable : Option Nat)
  | invalid
deriving DecidableEq

/-- Request-level inputs of pay_lightning: the parsed source, the outcome of
    the external get_invoice call for the lnurl and nostr branches, and the
    outcome of send_payment_sync. -/
structure LightningEnv where
  source : LnSource
  getInvoiceOk : Bool
  sendTransportOk : Bool
  paymentError : Bool

/-- The send_payment_sync call at the end of pay_lightning, with its
    payment_error check. -/
def send_payment_step (env : LightningEnv) : Except String String × List Event :=
  if !env.sendTransportOk then (.error "transport error", [.sendPaymentRpc])
  else if env.paymentError then (.error "Payment error", [.sendPaymentRpc])
  else (.ok "preimage", [.sendPaymentRpc])

/-- pay_lightning from src/lightning.rs: obtain an invoice (each branch
    enforcing its amount cap), then pay it.  No branch touches the spend
    ledger. -/
def pay_lightning (env : LightningEnv) : Except String String × List Event :=
  match env.source with
  | .invoice none => (.error "bolt11 invoice should have an amount", [])
  | .invoice (some msat) =>
    if msat / 1000 > MAX_SEND_AMOUNT then (.error "max amount is 10,000,000", [])
    else send_payment_step env
  | .lnurlPay none => (.error "invalid lnurl", [])
  | .lnurlPay (some minS) =>
    if minS > MAX_SEND_AMOUNT then (.error "max amount is 10,000,000", [])
    else if !env.getInvoiceOk then (.error "failed to get invoice", [])
    else send_payment_step env
  | .nostrKey none => (.error "no lnurl", [])
  | .nostrKey (some minS) =>
    if minS > MAX_SEND_AMOUNT then (.error "max amount is 10,000,000", [])
    else if !env.getInvoiceOk then (.error "failed to get invoice", [])
    else send_payment_step env
  | .invalid => (.error "invalid bolt11", [])

/-- lightning_handler from src/main.rs: reject when the ip-only total
    strictly exceeds ten times the cap, otherwise pay; the ledger is never
    written on this rail. -/
def lightning_handler (env : LightningEnv) (l : Ledger) (ip : String) (now : Nat) :
    Except String String × Ledger × List Event :=
  let r := get_total_payments l ip now
  if r.1 > MAX_SEND_AMOUNT * 10 then (.error "Too many payments", r.2, [.admissionCheck])
  else
    let s := pay_lightning env
    (s.1, r.2, Event.admissionCheck :: s.2)

/-- ChannelRequest from src/channel.rs. -/
structure ChannelRequest where
  capacity : Int
  push_amount : Int
  pubkey : String
  host : Option String

/-- Request-level inputs of open_channel: hex pubkey validity, the outcomes
    of the list_peers, connect_peer and open_channel_sync RPCs, and the
    funding txid of the returned channel point (none = absent or
    undecodable). -/
structure ChannelEnv where
  pubkeyValid : Bool
  peersOk : Bool
  connected : Bool
  openOk : Bool
  fundingTxid : Option String

/-- The open_channel_sync call and its aftermath in src/channel.rs: on a
    decodable funding txid the spend is recorded, after the RPC succeeded. -/
def open_channel_rpc (env : ChannelEnv) (req : ChannelRequest) (ip : String)
    (l : Ledger) (now : Nat) (tr0 : List Event) :
    Except String String × Ledger × List Event :=
  if !env.openOk then (.error "open channel rpc failed", l, tr0 ++ [.openChannelRpc])
  else
    match env.fundingTxid with
    | none => (.error "failed to open channel", l, tr0 ++ [.openChannelRpc])
    | some txid =>
      (.ok txid, add_payment l ip none none now req.capacity.toNat,
        tr0 ++ [.openChannelRpc, .recordSpend])

/-- open_channel from src/channel.rs: capacity and push_amount guards, pubkey
    decoding, the optional connect-to-peer block, then the channel-open RPC. -/
def open_channel (env : ChannelEnv) (req : ChannelRequest) (ip : String)
    (l : Ledger) (now : Nat) : Except String String × Ledger × List Event :=
  if req.capacity > (MAX_SEND_AMOUNT : Int) then (.error "max capacity is 1,000,000", l, [])
  else if req.push_amount < 0 then (.error "push_amount must be positive", l, [])
  else if req.push_amount > req.capacity then
    (.error "push_amount must be less than or equal to capacity", l, [])
  else if !env.pubkeyValid then (.error "invalid pubkey", l, [])
  else
    match req.host with
    | some _ =>
      if !env.peersOk then (.error "list peers rpc failed", l, [.listPeersRpc])
      else if env.connected then open_channel_rpc env req ip l now [.listPeersRpc]
      else open_channel_rpc env req ip l now [.listPeersRpc, .connectPeerRpc]
    | none => open_channel_rpc env req ip l now []

/-- channel_handler from src/main.rs: reject when the ip-only total strictly
    exceeds ten times the cap, otherwise open the channel. -/
def channel_handler (env : ChannelEnv) (req : ChannelRequest) (ip : String)
    (l : Ledger) (now : Nat) : Except String String × Ledger × List Event :=
  let r := get_total_payments l ip now
  if r.1 > MAX_SEND_AMOUNT * 10 then (.error "Too many payments", r.2, [.admissionCheck])
  else
    let s := open_channel env req ip r.2 now
    (s.1, s.2.1, Event.admissionCheck :: s.2.2)

/-- Request-level inputs of payjoin_request (src/payjoin.rs): whether the
    wire payload parses, the node verdict of test_mempool_accept, the
    proposer input scripts and their script types, the receiver's fixed
    script, the library verdict of identify_receiver_outputs, the wallet
    UTXO snapshot as (outpoint id, amount) pairs, the outpoint chosen by the
    privacy-preserving selector (none = selection failed), and the outcomes
    of the list_unspent, lease_output, new_address, fund/sign and
    finalize_psbt calls.  The payjoin library combinators themselves are
    external; each stage verdict follows the closure the code passes in
    (stage 2 flags an input equal to the receiver script, stage 4 always
    reports the input as unseen). -/
structure PayjoinEnv where
  parseOk : Bool
  broadcastAllowed : Bool
  inputScripts : List Nat
  inputScriptTypes : List Nat
  receiverScript : Nat
  identifyOk : Bool
  utxos : List (Nat × Nat)
  selected : Option Nat
  listUnspentOk : Bool
  leaseOk : Bool
  newAddrOk : Bool
  fundSignOk : Bool
  finalizeOk : Bool

/-- The check-2 closure applied across the proposer inputs: does any input
    script equal the receiver's fixed script? -/
def inputs_owned (env : PayjoinEnv) : Bool :=
  env.inputScripts.any (fun s => s == env.receiverScript)

/-- The check-3 verdict: all input script types agree. -/
def all_same : List Nat → Bool
  | [] => true
  | x :: xs => xs.all (fun y => y == x)

/-- try_contributing_inputs from src/payjoin.rs: list_unspent, the privacy
    selector, the lookup of the selected outpoint among the snapshot, the
    lease_output RPC, and on success the contribution of exactly one
    receiver input.  Returns how many inputs were contributed. -/
def try_contributing_inputs (env : PayjoinEnv) : Nat × List Event :=
  if !env.listUnspentOk then (0, [.listUnspentRpc])
  else
    match env.selected with
    | none => (0, [.listUnspentRpc])
    | some sel =>
      match env.utxos.find? (fun u => u.1 == sel) with
      | none => (0, [.listUnspentRpc])
      | some _ =>
        if !env.leaseOk then (0, [.listUnspentRpc, .leaseOutputRpc])
        else (1, [.listUnspentRpc, .leaseOutputRpc])

/-- payjoin_request from src/payjoin.rs: parse, the four receive checks and
    output identification strictly in order (check 4 never rejects because
    the closure always reports unseen), then the non-fatal input
    contribution whose result is discarded, the new-address RPC, output
    substitution, finalize_proposal (fund then sign) and finalize_psbt.
    Returns the outcome, the event trace, and the number of contributed
    receiver inputs. -/
def payjoin_request (env : PayjoinEnv) : Except String String × List Event × Nat :=
  if !env.parseOk then (.error "failed to parse request", [], 0)
  else if !env.broadcastAllowed then
    (.error "Failed to broadcast", [.testMempoolAcceptRpc], 0)
  else if inputs_owned env then
    (.error "Failed to validate inputs", [.testMempoolAcceptRpc, .ownershipCheck], 0)
  else if !all_same env.inputScriptTypes then
    (.error "Failed to validate input scripts",
      [.testMempoolAcceptRpc, .ownershipCheck, .mixedScriptsCheck], 0)
  else if !env.identifyOk then
    (.error "Failed to identify receiver outputs",
      [.testMempoolAcceptRpc, .ownershipCheck, .mixedScriptsCheck, .seenBeforeCheck,
        .identifyOutputsCheck], 0)
  else
    let sel := try_contributing_inputs env
    let base := [Event.testMempoolAcceptRpc, Event.ownershipCheck, Event.mixedScriptsCheck,
      Event.seenBeforeCheck, Event.identifyOutputsCheck] ++ sel.2 ++ [Event.newAddressRpc]
    if !env.newAddrOk then (.error "failed to get new address", base, sel.1)
    else if !env.fundSignOk then
      (.error "Failed to finalize proposal",
        base ++ [.substituteOutput, .fundPsbtRpc, .signPsbtRpc], sel.1)
    else if !env.finalizeOk then
      (.error "failed to finalize psbt",
        base ++ [.substituteOutput, .fundPsbtRpc, .signPsbtRpc, .finalizePsbtRpc], sel.1)
    else
      (.ok "finalized psbt base64",
        base ++ [.substituteOutput, .fundPsbtRpc, .signPsbtRpc, .finalizePsbtRpc], sel.1)

/-- A proposal rejected at one of the validation checks (stages 1-3, 5, 6;
    stage 4 cannot reject). -/
def check_rejected (env : PayjoinEnv) : Bool :=
  !env.parseOk || !env.broadcastAllowed || inputs_owned env ||
    !all_same env.inputScriptTypes || !env.identifyOk

/-- A proposal that passed every validation check. -/
def certified (env : PayjoinEnv) : Bool :=
  env.parseOk && env.broadcastAllowed && !inputs_owned env &&
    all_same env.inputScriptTypes && env.identifyOk

theorem try_contributing_le_one (env : PayjoinEnv) :
    (try_contributing_inputs env).1 ≤ 1 := by
  unfold try_contributing_inputs
  split
  · simp
  · split
    · simp
    · split
      · simp
      · split <;> simp

theorem try_contributing_zero (env : PayjoinEnv)
    (h : env.listUnspentOk = false ∨ env.selected = none ∨ env.utxos = [] ∨
      env.leaseOk = false) :
    (try_contributing_inputs env).1 = 0 := by
  cases hL : env.listUnspentOk with
  | false => simp [try_contributing_inputs, hL]
  | true =>
    cases hS : env.selected with
    | none => simp [try_contributing_inputs, hL, hS]
    | some sel =>
      rcases h with h | h | h | h
      · rw [hL] at h; cases h
      · rw [hS] at h; cases h
      · simp [try_contributing_inputs, hL, hS, h, List.find?]
      · cases hF : env.utxos.find? (fun u => u.1 == sel) with
        | none => simp [try_contributing_inputs, hL, hS, hF]
        | some u => simp [try_contributing_inputs, hL, hS, hF, h]

theorem admission_not_in_try (env : PayjoinEnv) :
    Event.admissionCheck ∉ (try_contributing_inputs env).2 := by
  unfold try_contributing_inputs
  split
  · simp
  · split
    · simp
    · split
      · simp
      · split <;> simp

/-- C5: the payjoin validation stages run strictly in order and a later
    stage never runs after an earlier rejection: a parse failure produces no
    events; a broadcast failure leaves exactly the mempool test in the trace
    and the ownership oracle is never invoked; each later check rejection
    leaves exactly the events of the stages up to and including it; and a
    proposal rejected at any check never reaches input selection, funding or
    signing. -/
theorem C5_pipeline_order (env : PayjoinEnv) :
    (env.parseOk = false → (payjoin_request env).2.1 = []) ∧
    (env.parseOk = true → env.broadcastAllowed = false →
      (payjoin_request env).2.1 = [Event.testMempoolAcceptRpc] ∧
        Event.ownershipCheck ∉ (payjoin_request env).2.1) ∧
    (env.parseOk = true → env.broadcastAllowed = true → inputs_owned env = true →
      (payjoin_request env).2.1 = [Event.testMempoolAcceptRpc, Event.ownershipCheck]) ∧
    (env.parseOk = true → env.broadcastAllowed = true → inputs_owned env = false →
      all_same env.inputScriptTypes = false →
      (payjoin_request env).2.1
        = [Event.testMempoolAcceptRpc, Event.ownershipCheck, Event.mixedScriptsCheck]) ∧
    (env.parseOk = true → env.broadcastAllowed = true → inputs_owned env = false →
      all_same env.inputScriptTypes = true → env.identifyOk = false →
      (payjoin_request env).2.1
        = [Event.testMempoolAcceptRpc, Event.ownershipCheck, Event.mixedScriptsCheck,
            Event.seenBeforeCheck, Event.identifyOutputsCheck]) ∧
    (check_rejected env = true →
      Event.listUnspentRpc ∉ (payjoin_request env).2.1 ∧
      Event.fundPsbtRpc ∉ (payjoin_request env).2.1 ∧
      Event.signPsbtRpc ∉ (payjoin_request env).2.1) := by
  refine ⟨?_, ?_, ?_, ?_, ?_, ?_⟩
  · intro h1; simp [payjoin_request, h1]
  · intro h1 h2; simp [payjoin_request, h1, h2]
  · intro h1 h2 h3; simp [payjoin_request, h1, h2, h3]
  · intro h1 h2 h3 h4; simp [payjoin_request, h1, h2, h3, h4]
  · intro h1 h2 h3 h4 h5; simp [payjoin_request, h1, h2, h3, h4, h5]
  · intro h
    cases h1 : env.parseOk with
    | false => simp [payjoin_request, h1]
    | true =>
      cases h2 : env.broadcastAllowed with
      | false => simp [payjoin_request, h1, h2]
      | true =>
        cases h3 : inputs_owned env with
        | true => simp [payjoin_request, h1, h2, h3]
        | false =>
          cases h4 : all_same env.inputScriptTypes with
          | false => simp [payjoin_request, h1, h2, h3, h4]
          | true =>
            cases h5 : env.identifyOk with
            | false => simp [payjoin_request, h1, h2, h3, h4, h5]
            | true => simp [check_rejected, h1, h2, h3, h4, h5] at h

/-- The payjoin proposal of the C5 witness: parses but is not broadcastable. -/
def c5_env : PayjoinEnv :=
  { parseOk := true, broadcastAllowed := false, inputScripts := [], inputScriptTypes := [],
    receiverScript := 0, identifyOk := true, utxos := [], selected := none,
    listUnspentOk := true, leaseOk := true, newAddrOk := true, fundSignOk := true,
    finalizeOk := true }

/-- C5 witness: for a concrete proposal failing the broadcast check, the
    trace is exactly the mempool test and the ownership oracle never ran. -/
theorem C5_witness :
    (payjoin_request c5_env).2.1 = [Event.testMempoolAcceptRpc] ∧
      Event.ownershipCheck ∉ (payjoin_request c5_env).2.1 :=
  (C5_pipeline_order c5_env).2.1 rfl rfl

/-- C8: receiver input contribution is best-effort and non-fatal: at most one
    receiver input is ever contributed, and for every certified proposal a
    failed input selection (list_unspent failure, no selector choice, an
    empty receiver UTXO set, or a failed lease) contributes zero inputs while
    the pipeline still proceeds to the new-address step, and when that step
    succeeds to output substitution and the funding of the finalized
    proposal. -/
theorem C8_contribution (env : PayjoinEnv) :
    (payjoin_request env).2.2 ≤ 1 ∧
    (certified env = true →
      (env.listUnspentOk = false ∨ env.selected = none ∨ env.utxos = [] ∨
        env.leaseOk = false) →
      (payjoin_request env).2.2 = 0 ∧
        Event.newAddressRpc ∈ (payjoin_request env).2.1 ∧
        (env.newAddrOk = true →
          Event.substituteOutput ∈ (payjoin_request env).2.1 ∧
          Event.fundPsbtRpc ∈ (payjoin_request env).2.1)) := by
  constructor
  · cases h1 : env.parseOk with
    | false => simp [payjoin_request, h1]
    | true =>
      cases h2 : env.broadcastAllowed with
      | false => simp [payjoin_request, h1, h2]
      | true =>
        cases h3 : inputs_owned env with
        | true => simp [payjoin_request, h1, h2, h3]
        | false =>
          cases h4 : all_same env.inputScriptTypes with
          | false => simp [payjoin_request, h1, h2, h3, h4]
          | true =>
            cases h5 : env.identifyOk with
            | false => simp [payjoin_request, h1, h2, h3, h4, h5]
            | true =>
              simp only [payjoin_request, h1, h2, h3, h4, h5]
              split_ifs <;> simp [try_contributing_le_one env]
  · intro hcert hfail
    simp only [certified, Bool.and_eq_true, Bool.not_eq_true'] at hcert
    obtain ⟨⟨⟨⟨h1, h2⟩, h3⟩, h4⟩, h5⟩ := hcert
    have h0 : (try_contributing_inputs env).1 = 0 := try_contributing_zero env hfail
    simp only [payjoin_request, h1, h2, h3, h4, h5]
    split_ifs with ha hb hc <;> simp_all

/-- The payjoin proposal of the C8 witness: fully certified, but the
    list_unspent call fails and the receiver UTXO set is empty. -/
def c8_env : PayjoinEnv :=
  { parseOk := true, broadcastAllowed := true, inputScripts := [3], inputScriptTypes := [2],
    receiverScript := 9, identifyOk := true, utxos := [], selected := none,
    listUnspentOk := false, leaseOk := true, newAddrOk := true, fundSignOk := true,
    finalizeOk := true }

/-- C8 witness: a concrete certified proposal with a failed input selection
    contributes zero inputs and still reaches output substitution and
    funding. -/
theorem C8_witness :
    (payjoin_request c8_env).2.2 = 0 ∧
      Event.newAddressRpc ∈ (payjoin_request c8_env).2.1 ∧
      (c8_env.newAddrOk = true →
        Event.substituteOutput ∈ (payjoin_request c8_env).2.1 ∧
        Event.fundPsbtRpc ∈ (payjoin_request c8_env).2.1) :=
  (C8_contribution c8_env).2 rfl (Or.inl rfl)

/-- C1 amended: the on-chain, lightning and channel handlers each consult an
    admission check on the shared spend ledger before any disbursing RPC
    (verify_payments over ip, destination and identity on the on-chain rail;
    an ip-only strict comparison against ten times MAX_SEND_AMOUNT on the
    lightning and channel rails), while the payjoin handler never consults
    the guard at all. -/
theorem C1_guard_per_rail :
    (∀ (env : OnchainEnv) (ip user : String) (l : Ledger) (now : Nat),
      guard_before_disbursement (onchain_handler env ip user l now).2.2 = true) ∧
    (∀ (env : LightningEnv) (l : Ledger) (ip : String) (now : Nat),
      guard_before_disbursement (lightning_handler env l ip now).2.2 = true) ∧
    (∀ (env : ChannelEnv) (req : ChannelRequest) (ip : String) (l : Ledger) (now : Nat),
      guard_before_disbursement (channel_handler env req ip l now).2.2 = true) ∧
    (∀ env : PayjoinEnv, Event.admissionCheck ∉ (payjoin_request env).2.1) := by
  refine ⟨?_, ?_, ?_, ?_⟩
  · intro env ip user l now
    cases hp : env.parseOk with
    | false => simp [onchain_handler, hp, guard_before_disbursement, guard_before]
    | true =>
      by_cases hv : (verify_payments l ip (some env.address) (some user) now).1 = true
      · simp [onchain_handler, hp, hv, guard_before_disbursement, guard_before,
          Event.is_disbursing]
      · simp [onchain_handler, hp, hv, guard_before_disbursement, guard_before,
          Event.is_disbursing, guard_before_of_seen]
  · intro env l ip now
    by_cases hv : (get_total_payments l ip now).1 > MAX_SEND_AMOUNT * 10
    · simp [lightning_handler, hv, guard_before_disbursement, guard_before,
        Event.is_disbursing]
    · simp [lightning_handler, hv, guard_before_disbursement, guard_before,
        Event.is_disbursing, guard_before_of_seen]
  · intro env req ip l now
    by_cases hv : (get_total_payments l ip now).1 > MAX_SEND_AMOUNT * 10
    · simp [channel_handler, hv, guard_before_disbursement, guard_before,
        Event.is_disbursing]
    · simp [channel_handler, hv, guard_before_disbursement, guard_before,
        Event.is_disbursing, guard_before_of_seen]
  · intro env
    cases h1 : env.parseOk with
    | false => simp [payjoin_request, h1]
    | true =>
      cases h2 : env.broadcastAllowed with
      | false => simp [payjoin_request, h1, h2]
      | true =>
        cases h3 : inputs_owned env with
        | true => simp [payjoin_request, h1, h2, h3]
        | false =>
          cases h4 : all_same env.inputScriptTypes with
          | false => simp [payjoin_request, h1, h2, h3, h4]
          | true =>
            cases h5 : env.identifyOk with
            | false => simp [payjoin_request, h1, h2, h3, h4, h5]
            | true =>
              simp only [payjoin_request, h1, h2, h3, h4, h5]
              split_ifs <;> simp [admission_not_in_try env]

/-- The payjoin proposal of the C1 counterexample: every external check and
    call succeeds, so the request disburses through fund/sign. -/
def c1_env : PayjoinEnv :=
  { parseOk := true, broadcastAllowed := true, inputScripts := [3], inputScriptTypes := [2],
    receiverScript := 9, identifyOk := true, utxos := [(1, 5000)], selected := some 1,
    listUnspentOk := true, leaseOk := true, newAddrOk := true, fundSignOk := true,
    finalizeOk := true }

/-- C1 counterexample: a fully successful payjoin settlement performs
    disbursing RPCs (fund and sign) with no admission check anywhere before
    them in its trace, so the claim that every value-moving rail consults
    the Admission Guard before disbursing is false on the payjoin rail. -/
theorem C1_counterexample :
    guard_before_disbursement (payjoin_request c1_env).2.1 = false := by decide

theorem open_channel_rpc_ledger (env : ChannelEnv) (req : ChannelRequest) (ip : String)
    (l : Ledger) (now : Nat) (tr0 : List Event)
    (h : env.openOk = false ∨ env.fundingTxid = none) :
    (open_channel_rpc env req ip l now tr0).2.1 = l := by
  rcases h with h | h
  · simp [open_channel_rpc, h]
  · cases ho : env.openOk <;> simp [open_channel_rpc, ho, h]

/-- C4 amended: only the channel rail records the spend strictly after a
    successful disbursement (an RPC failure or a missing funding txid leaves
    the ledger unchanged); the on-chain rail records the spend before the
    send_coins RPC, so the ledger is updated whether or not the RPC
    succeeds; and the lightning rail never records a spend (its handler
    leaves every key's window total unchanged). -/
theorem C4_record_timing :
    (∀ (env : ChannelEnv) (req : ChannelRequest) (ip : String) (l : Ledger) (now : Nat),
      (env.openOk = false ∨ env.fundingTxid = none) →
        (open_channel env req ip l now).2.1 = l) ∧
    (∀ (env : OnchainEnv) (ip user : String) (l : Ledger) (now : Nat),
      env.parseOk = true → env.amount ≤ MAX_SEND_AMOUNT →
        (pay_onchain env ip user l now).2.1
          = add_payment l ip (some env.address) (some user) now env.amount) ∧
    (∀ (env : LightningEnv) (l : Ledger) (ip : String) (now : Nat) (k : String),
      ledger_total (lightning_handler env l ip now).2.1 k now = ledger_total l k now) := by
  refine ⟨?_, ?_, ?_⟩
  · intro env req ip l now h
    unfold open_channel
    split_ifs <;> try rfl
    all_goals cases hh : req.host
    all_goals first
      | rfl
      | exact open_channel_rpc_ledger env req ip l now _ h
  · intro env ip user l now hp hle
    have hgt : ¬(env.amount > MAX_SEND_AMOUNT) := by omega
    cases hs : env.sendResult <;> simp [pay_onchain, hp, hgt, hs]
  · intro env l ip now k
    simp only [lightning_handler]
    split_ifs <;> exact ledger_total_get l ip k now

/-- The on-chain request of the C4 counterexample: valid address and amount,
    but the send_coins RPC fails. -/
def c4_env : OnchainEnv :=
  { parseOk := true, address := "tb1qfaucet", amount := 1000, sendResult := none }

/-- C4 counterexample: on the on-chain rail a failed send_coins RPC still
    leaves the spend recorded: the request errors, yet the ip key's window
    total has grown from zero to the requested amount, so the claim that a
    failed disbursement leaves the ledger unchanged is false. -/
theorem C4_counterexample :
    (pay_onchain c4_env "1.2.3.4" "alice" [] 0).1 = Except.error "send coins failed" ∧
    ledger_total (pay_onchain c4_env "1.2.3.4" "alice" [] 0).2.1 "1.2.3.4" 0 = 1000 := by
  constructor
  · rfl
  · rfl

/-- The channel request and environment of the C4 witness: passes the
    guards, but the open-channel RPC fails. -/
def c4_chan_env : ChannelEnv :=
  { pubkeyValid := true, peersOk := true, connected := true, openOk := false,
    fundingTxid := none }

/-- The channel request of the C4 witness. -/
def c4_chan_req : ChannelRequest :=
  { capacity := 100000, push_amount := 0, pubkey := "aa", host := none }

/-- C4 witness: concrete instances of the amended claim: a failed channel
    open leaves a nonempty ledger unchanged, and an on-chain request passing
    its checks writes the ledger before the send RPC regardless of the RPC
    outcome. -/
theorem C4_witness :
    (open_channel c4_chan_env c4_chan_req "5.6.7.8"
        [("k", PaymentTracker.mk [Payment.mk 0 7])] 0).2.1
      = [("k", PaymentTracker.mk [Payment.mk 0 7])] ∧
    (pay_onchain c4_env "5.6.7.8" "bob" [] 0).2.1
      = add_payment [] "5.6.7.8" (some c4_env.address) (some "bob") 0 c4_env.amount :=
  ⟨C4_record_timing.1 c4_chan_env c4_chan_req "5.6.7.8"
      [("k", PaymentTracker.mk [Payment.mk 0 7])] 0 (Or.inl rfl),
    C4_record_timing.2.1 c4_env "5.6.7.8" "bob" [] 0 rfl (by decide)⟩

/-- C10: open_channel returns an error with no RPC made and no spend
    recorded whenever the requested capacity exceeds MAX_SEND_AMOUNT, the
    push amount is negative, or the push amount exceeds the capacity; and a
    request passing those three checks with a decodable pubkey (and no peer
    host to connect first) proceeds to the channel-open RPC. -/
theorem C10_channel_guards :
    (∀ (env : ChannelEnv) (req : ChannelRequest) (ip : String) (l : Ledger) (now : Nat),
      (req.capacity > (MAX_SEND_AMOUNT : Int) ∨ req.push_amount < 0 ∨
          req.push_amount > req.capacity) →
        (∃ e, (open_channel env req ip l now).1 = Except.error e) ∧
        (open_channel env req ip l now).2.1 = l ∧
        (open_channel env req ip l now).2.2 = []) ∧
    (∀ (env : ChannelEnv) (req : ChannelRequest) (ip : String) (l : Ledger) (now : Nat),
      req.capacity ≤ (MAX_SEND_AMOUNT : Int) → 0 ≤ req.push_amount →
      req.push_amount ≤ req.capacity → env.pubkeyValid = true → req.host = none →
        Event.openChannelRpc ∈ (open_channel env req ip l now).2.2) := by
  constructor
  · intro env req ip l now h
    unfold open_channel
    split_ifs with h1 h2 h3 h4 <;>
      first
        | exact ⟨⟨_, rfl⟩, rfl, rfl⟩
        | tauto
  · intro env req ip l now h1 h2 h3 hp hh
    have c1 : ¬(req.capacity > (MAX_SEND_AMOUNT : Int)) := not_lt.mpr h1
    have c2 : ¬(req.push_amount < 0) := not_lt.mpr h2
    have c3 : ¬(req.push_amount > req.capacity) := not_lt.mpr h3
    simp only [open_channel, c1, c2, c3, hp, hh, if_false, Bool.not_true]
    cases ho : env.openOk with
    | false => simp [open_channel_rpc, ho]
    | true => cases hf : env.fundingTxid <;> simp [open_channel_rpc, ho, hf]

/-- The channel environment of the C10 witness: everything external
    succeeds. -/
def c10_env : ChannelEnv :=
  { pubkeyValid := true, peersOk := true, connected := true, openOk := true,
    fundingTxid := some "ff00" }

/-- The over-capacity channel request of the C10 witness. -/
def c10_req_bad : ChannelRequest :=
  { capacity := 2000000, push_amount := 0, pubkey := "aa", host := none }

/-- The in-policy channel request of the C10 witness. -/
def c10_req_ok : ChannelRequest :=
  { capacity := 100000, push_amount := 1000, pubkey := "aa", host := none }

/-- C10 witness: a concrete over-capacity request errors with an empty trace
    and unchanged ledger, and a concrete in-policy request reaches the
    channel-open RPC. -/
theorem C10_witness :
    ((∃ e, (open_channel c10_env c10_req_bad "ip" [] 0).1 = Except.error e) ∧
      (open_channel c10_env c10_req_bad "ip" [] 0).2.1 = [] ∧
      (open_channel c10_env c10_req_bad "ip" [] 0).2.2 = []) ∧
    Event.openChannelRpc ∈ (open_channel c10_env c10_req_ok "ip" [] 0).2.2 :=
  ⟨C10_channel_guards.1 c10_env c10_req_bad "ip" [] 0 (Or.inl (by decide)),
    C10_channel_guards.2 c10_env c10_req_ok "ip" [] 0 (by decide) (by decide) (by decide)
      rfl rfl⟩
